import Mathlib

/-!
Shallow embedding of the Archivist of Moirai repository: the round state
machine of `src/Components/Game/Game.jsx`, the retry wrapper of
`src/api/ai.js`, and the fragment-relay validation of `server.js`.
External effects (Firestore writes, alerts, session termination, the
outbound fetch) are recorded as explicit events or passed in as
parameters, so every function is a pure, executable state transformer.
-/

namespace Archivist

/-- The three causal-force tags (the `AxiomTag` union in `src/api/ai.js`,
the `tags` array in `Game.jsx`). -/
inductive Tag
  | FATE
  | CHOICE
  | CHANCE
deriving DecidableEq, Repr

/-- The `gameState` values of `Game.jsx`:
`'loading' | 'playing' | 'revealing' | 'error' | 'ready_to_start'`. -/
inductive GameState
  | loading
  | ready_to_start
  | playing
  | revealing
  | error
deriving DecidableEq, Repr

/-- The `stats` state object of `Game.jsx` (username plus the five
numeric counters). -/
structure Stats where
  username : String
  currentScore : Nat
  currentStreak : Nat
  highestStreak : Nat
  difficultyTier : Nat
  highestScore : Nat
deriving DecidableEq, Repr

/-- The fields written by `updateStatsInDb` in `Game.jsx` through
`updateDoc` (the five stats counters plus `totalRoundsPlayed`). -/
structure DbStatsWrite where
  currentScore : Nat
  currentStreak : Nat
  highestStreak : Nat
  difficultyTier : Nat
  highestScore : Nat
  totalRoundsPlayed : Nat
deriving DecidableEq, Repr

/-- Observable external effects of the `Game.jsx` handlers: a Firestore
stats write, a user-visible alert (`showAlert`), the outbound fragment
request, and the session-termination call (`onSignOut`). -/
inductive Event
  | dbUpdate (w : DbStatsWrite)
  | alert (title msg : String)
  | fragmentRequest (difficulty : Nat) (tag : Tag)
  | sessionEnd
deriving DecidableEq, Repr

/-- The full `useState` state of the `Game` component in `Game.jsx`. -/
structure GameComponent where
  stats : Stats
  gameState : GameState
  currentFragment : String
  userClassification : Option Tag
  secretTag : Option Tag
  revelationText : Option String
  errorMessage : Option (String × String)
  attemptCount : Nat
  totalRoundsPlayed : Nat
  initialLoadComplete : Bool
deriving DecidableEq, Repr

/-- The `useState` defaults of `Game.jsx` for the `stats` object. -/
def initialStats : Stats :=
  { username := "The Archivist"
    currentScore := 0
    currentStreak := 0
    highestStreak := 0
    difficultyTier := 1
    highestScore := 0 }

/-- The `useState` defaults of the `Game` component on mount. -/
def initialGame : GameComponent :=
  { stats := initialStats
    gameState := GameState.loading
    currentFragment := ""
    userClassification := none
    secretTag := none
    revelationText := none
    errorMessage := none
    attemptCount := 0
    totalRoundsPlayed := 0
    initialLoadComplete := false }

/-- The promotion message built in `handleClassification`
(template literal in `Game.jsx`). -/
def promotionText (n : Nat) : String :=
  "Archivist Promotion! Difficulty Tier is now " ++ toString n ++
    ". Prepare for greater subtlety!"

/-- The stats-and-promotion computation of `handleClassification` in
`Game.jsx`: the mutation sequence applied to the copied `newStats`
object, returning it together with the optional `promotionMessage`. -/
def classifyStats (stats : Stats) (isCorrect : Bool) : Stats × Option String :=
  if isCorrect then
    let a := { stats with currentScore := stats.currentScore + 10,
                          currentStreak := stats.currentStreak + 1 }
    let b := if a.currentStreak > a.highestStreak
             then { a with highestStreak := a.currentStreak } else a
    let c := if b.currentScore > b.highestScore
             then { b with highestScore := b.currentScore } else b
    if c.currentStreak % 5 = 0 then
      ({ c with difficultyTier := c.difficultyTier + 1 },
       some (promotionText (c.difficultyTier + 1)))
    else (c, none)
  else
    ({ stats with currentStreak := 0 }, none)

/-- `updateStatsInDb` from `Game.jsx`: the partial-update object passed
to Firestore's `updateDoc` (it also carries the component's
`totalRoundsPlayed`). -/
def updateStatsInDb (newStats : Stats) (totalRoundsPlayed : Nat) : DbStatsWrite :=
  { currentScore := newStats.currentScore
    currentStreak := newStats.currentStreak
    highestStreak := newStats.highestStreak
    difficultyTier := newStats.difficultyTier
    highestScore := newStats.highestScore
    totalRoundsPlayed := totalRoundsPlayed }

/-- `handleClassification` from `Game.jsx`: guard on `gameState`,
record the choice, enter `revealing`, apply the scoring policy, issue
the Firestore write, and show the promotion alert when earned. -/
def handleClassification (s : GameComponent) (choice : Tag) :
    GameComponent × List Event :=
  if s.gameState ≠ GameState.playing then (s, [])
  else
    let res := classifyStats s.stats (s.secretTag == some choice)
    let newStats := res.1
    let s1 := { s with userClassification := some choice,
                       gameState := GameState.revealing,
                       stats := newStats }
    match res.2 with
    | some m =>
        ({ s1 with errorMessage := some ("Promotion Achieved", m) },
         [Event.dbUpdate (updateStatsInDb newStats s.totalRoundsPlayed),
          Event.alert "Promotion Achieved" m])
    | none =>
        (s1, [Event.dbUpdate (updateStatsInDb newStats s.totalRoundsPlayed)])

/-- A sequence of classifications applied through `handleClassification`
(threading only the component state; each call's events are dropped). -/
def classifySeq (s : GameComponent) (l : List Tag) : GameComponent :=
  l.foldl (fun s c => (handleClassification s c).1) s

/-- The invariant claimed for the stats counters. -/
def statsInv (st : Stats) : Prop :=
  st.currentScore ≤ st.highestScore ∧ st.currentStreak ≤ st.highestStreak

instance (st : Stats) : Decidable (statsInv st) := by
  unfold statsInv
  infer_instance

/-- JavaScript `x || dflt` on an optional number (`0` is falsy). -/
def jsOrNat (o : Option Nat) (dflt : Nat) : Nat :=
  match o with
  | some n => if n = 0 then dflt else n
  | none => dflt

/-- JavaScript `x || dflt` on an optional string (`""` is falsy). -/
def jsOrStr (o : Option String) (dflt : String) : String :=
  match o with
  | some s => if s = "" then dflt else s
  | none => dflt

/-- The fields of the Firestore user document read by `fetchUserData`
in `Game.jsx`; any of them may be absent. -/
structure UserDoc where
  username : Option String
  difficultyTier : Option Nat
  totalRoundsPlayed : Option Nat
  highestStreak : Option Nat
  highestScore : Option Nat
deriving DecidableEq, Repr

/-- Outcome of the `getDoc` call in `fetchUserData`: a snapshot that
exists (`some`), a snapshot that does not (`none`), or a thrown error. -/
inductive DocFetch
  | ok (snap : Option UserDoc)
  | err (msg : String)
deriving DecidableEq, Repr

/-- `fetchUserData` from `Game.jsx` (the mount effect): on an existing
snapshot it loads the profile and resets `currentScore`/`currentStreak`;
on a missing snapshot it changes nothing; on an error it shows the
"Data Error" alert; in every case it finally enters `ready_to_start`. -/
def fetchUserData (fetch : DocFetch) (s : GameComponent) :
    GameComponent × List Event :=
  match fetch with
  | DocFetch.ok (some userData) =>
      let initialDifficulty := jsOrNat userData.difficultyTier 1
      let initialTotalRounds := jsOrNat userData.totalRoundsPlayed 0
      ({ s with
          totalRoundsPlayed := initialTotalRounds,
          stats := { s.stats with
            username := jsOrStr userData.username "The Archivist",
            currentScore := 0,
            currentStreak := 0,
            highestStreak := jsOrNat userData.highestStreak 0,
            difficultyTier := initialDifficulty,
            highestScore := jsOrNat userData.highestScore 0 },
          gameState := GameState.ready_to_start,
          initialLoadComplete := true }, [])
  | DocFetch.ok none =>
      ({ s with gameState := GameState.ready_to_start,
                initialLoadComplete := true }, [])
  | DocFetch.err _ =>
      ({ s with
          errorMessage :=
            some ("Data Error", "Could not load user progress from the Archives."),
          gameState := GameState.ready_to_start,
          initialLoadComplete := true },
       [Event.alert "Data Error" "Could not load user progress from the Archives."])

/-- `handleSignOut` from `Game.jsx`: zero `currentScore`/`currentStreak`,
await the Firestore write, then call the session-termination callback.
The returned list is the ordered trace of the handler's effects. -/
def handleSignOut (stats : Stats) (totalRoundsPlayed : Nat) : List Event :=
  let finalStats := { stats with currentScore := 0, currentStreak := 0 }
  [Event.dbUpdate (updateStatsInDb finalStats totalRoundsPlayed),
   Event.sessionEnd]

/-- `startNewRound` from `Game.jsx` with the external outcomes passed
in: the randomly drawn tag and the result of `fetchFragmentFromAI`
(fragment text and revelation text on success, the error message on
failure). -/
def startNewRound (s : GameComponent) (currentDifficulty : Option Nat)
    (randomSecretTag : Tag) (fetchResult : Except String (String × String)) :
    GameComponent × List Event :=
  let s1 := { s with gameState := GameState.loading,
                     errorMessage := none,
                     userClassification := none,
                     revelationText := none,
                     currentFragment := "" }
  let s2 := if s.attemptCount = 0
            then { s1 with totalRoundsPlayed := s1.totalRoundsPlayed + 1 }
            else s1
  let s3 := { s2 with attemptCount := (s.attemptCount + 1) % 5 }
  let effectiveDifficulty := jsOrNat currentDifficulty s.stats.difficultyTier
  match fetchResult with
  | Except.ok p =>
      ({ s3 with secretTag := some randomSecretTag,
                 currentFragment := p.1,
                 revelationText := some p.2,
                 gameState := GameState.playing },
       [Event.fragmentRequest effectiveDifficulty randomSecretTag])
  | Except.error msg =>
      ({ s3 with secretTag := some Tag.FATE,
                 revelationText := some "Due to a system failure, the true causal force cannot be determined. Please ensure your backend server is running and your API key is valid.",
                 currentFragment := "",
                 gameState := GameState.error,
                 errorMessage := some ("AI Generation Error", msg) },
       [Event.fragmentRequest effectiveDifficulty randomSecretTag,
        Event.alert "AI Generation Error" msg])

/-! ## The retry wrapper of `src/api/ai.js` -/

/-- An HTTP response as seen by `exponentialBackoffFetch` (status and
an opaque body). -/
structure Response where
  status : Nat
  body : String
deriving DecidableEq, Repr

/-- Outcome of one underlying `fetch` attempt: a response, or a thrown
connection error. -/
inductive FetchOutcome
  | ok (r : Response)
  | err (msg : String)
deriving DecidableEq, Repr

/-- Result of the whole `exponentialBackoffFetch` call: a returned
response, a rethrown error, or the trailing
`"Failed to connect to the AI service after multiple retries."` throw
placed after the loop. -/
inductive FetchResult
  | returned (r : Response)
  | thrown (msg : String)
  | exhausted
deriving DecidableEq, Repr

/-- The `for (let i = 0; i < retries; i++)` loop of
`exponentialBackoffFetch`, as structural recursion on the number of
remaining iterations (`remaining = retries - i`). Returns the result
together with the number of transport attempts made. A 429 response
with attempts remaining (`i < retries - 1`) is retried, any other
response is returned; a thrown error is rethrown on the final attempt
and otherwise retried; falling out of the loop hits the trailing
throw (`FetchResult.exhausted`). -/
def backoffAux (transport : Nat → FetchOutcome) (retries : Nat) :
    Nat → Nat → FetchResult × Nat
  | _, 0 => (FetchResult.exhausted, 0)
  | i, remaining + 1 =>
    match transport i with
    | FetchOutcome.ok r =>
        if r.status = 429 ∧ i < retries - 1 then
          ((backoffAux transport retries (i + 1) remaining).1,
           (backoffAux transport retries (i + 1) remaining).2 + 1)
        else (FetchResult.returned r, 1)
    | FetchOutcome.err msg =>
        if i = retries - 1 then (FetchResult.thrown msg, 1)
        else
          ((backoffAux transport retries (i + 1) remaining).1,
           (backoffAux transport retries (i + 1) remaining).2 + 1)

/-- `exponentialBackoffFetch` from `src/api/ai.js` (delays elided; the
`transport` function gives the outcome of each 0-indexed attempt). -/
def exponentialBackoffFetch (transport : Nat → FetchOutcome) (retries : Nat) :
    FetchResult × Nat :=
  backoffAux transport retries 0 retries

/-! ## The fragment relay of `server.js` -/

/-- The parsed JSON object checked by the relay route: each required
field may be absent. -/
structure JsonObj where
  fragmentText : Option String
  revelationText : Option String
deriving DecidableEq, Repr

/-- JavaScript truthiness of an optional string field (absent and `""`
are falsy). -/
def truthyStr (o : Option String) : Bool :=
  match o with
  | some s => s ≠ ""
  | none => false

/-- JavaScript truthiness of an optional number field (absent and `0`
are falsy). -/
def jsTruthyNat (o : Option Nat) : Bool :=
  match o with
  | some n => n ≠ 0
  | none => false

/-- First index of a character in a list (JavaScript `indexOf`,
with `none` for `-1`). -/
def firstIndexOfChar (cs : List Char) (c : Char) : Option Nat :=
  match cs with
  | [] => none
  | x :: xs =>
      if x = c then some 0
      else (firstIndexOfChar xs c).map (· + 1)

/-- Last index of a character in a list (JavaScript `lastIndexOf`,
with `none` for `-1`). -/
def lastIndexOfChar (cs : List Char) (c : Char) : Option Nat :=
  match cs with
  | [] => none
  | x :: xs =>
      match lastIndexOfChar xs c with
      | some j => some (j + 1)
      | none => if x = c then some 0 else none

/-- `extractJson` from `server.js`: take the substring from the first
opening brace to one past the last closing brace and parse it;
a missing brace, an empty range, or a parse failure yields `null`.
`JSON.parse` is the external collaborator passed in as `parse`. -/
def extractJson (parse : String → Option JsonObj) (text : String) :
    Option JsonObj :=
  let cs := text.toList
  match firstIndexOfChar cs '\x7b' with
  | none => none
  | some start =>
      let stop :=
        match lastIndexOfChar cs '\x7d' with
        | some j => j + 1
        | none => 0
      if start < stop then parse (String.mk ((cs.drop start).take (stop - start)))
      else none

/-- JavaScript `String.prototype.trim`: strip whitespace from both
ends (executable model of the `.trim()` applied to the model's raw
text in `server.js`). -/
def jsTrim (s : String) : String :=
  String.mk (((s.toList.dropWhile Char.isWhitespace).reverse.dropWhile
    Char.isWhitespace).reverse)

/-- Outcome of the `genai.models.generateContent` call in the relay
route: the raw response text, or a thrown error. -/
inductive ModelCall
  | text (t : String)
  | fail (msg : String)
deriving DecidableEq, Repr

/-- Result of the `POST /api/generate-fragment` route: `res.json(data)`
(HTTP 200), `res.status(400).json(...)`, or `res.status(500).json(...)`. -/
inductive RelayResult
  | ok (d : JsonObj)
  | clientError (msg : String)
  | serverError (msg : String)
deriving DecidableEq, Repr

/-- The `app.post('/api/generate-fragment')` handler of `server.js`:
validate the request body, call the model, trim and extract the JSON,
and forward it only when both required fields are truthy. -/
def generateFragmentHandler (parse : String → Option JsonObj)
    (secretTag : Option String) (difficultyTier : Option Nat)
    (model : ModelCall) : RelayResult :=
  if !(truthyStr secretTag && jsTruthyNat difficultyTier) then
    RelayResult.clientError "Missing secretTag or difficultyTier in request body."
  else
    match model with
    | ModelCall.fail msg =>
        RelayResult.serverError ("GenAI API call failed: " ++ msg)
    | ModelCall.text t =>
        let jsonText := jsTrim t
        match extractJson parse jsonText with
        | some data =>
            if truthyStr data.fragmentText && truthyStr data.revelationText then
              RelayResult.ok data
            else
              RelayResult.serverError "AI response format was invalid or unparsable."
        | none =>
            RelayResult.serverError "AI response format was invalid or unparsable."

/-! ## Characterization lemmas for the classification handler -/

/-- On a correct classification, `classifyStats` adds 10 to the score,
1 to the streak, clamps the records with `max`, and bumps the tier
exactly on a multiple-of-5 streak. -/
lemma classifyStats_true_eq (st : Stats) :
    classifyStats st true =
      ({ username := st.username,
         currentScore := st.currentScore + 10,
         currentStreak := st.currentStreak + 1,
         highestStreak := max st.highestStreak (st.currentStreak + 1),
         difficultyTier :=
           if (st.currentStreak + 1) % 5 = 0
           then st.difficultyTier + 1 else st.difficultyTier,
         highestScore := max st.highestScore (st.currentScore + 10) },
       if (st.currentStreak + 1) % 5 = 0
       then some (promotionText (st.difficultyTier + 1)) else none) := by
  simp only [classifyStats, if_true]
  split_ifs with h1 h2 h3 <;> simp_all [Stats.mk.injEq, Prod.ext_iff] <;> omega

/-- On an incorrect classification, `classifyStats` zeroes the streak
and leaves everything else alone. -/
lemma classifyStats_false_eq (st : Stats) :
    classifyStats st false = ({ st with currentStreak := 0 }, none) := rfl

lemma secretTag_beq_false {s : GameComponent} {t c : Tag}
    (htag : s.secretTag = some t) (hc : c ≠ t) :
    (s.secretTag == some c) = false := by
  rw [htag]
  cases t <;> cases c <;> simp_all

/-- The concrete starting point of the spec's round-state-machine test:
in state `playing` with `currentStreak = 4`, `currentScore = 40`,
`difficultyTier = 1` and secret tag `FATE`. -/
def g4 : GameComponent :=
  { stats := { username := "The Archivist", currentScore := 40,
               currentStreak := 4, highestStreak := 4,
               difficultyTier := 1, highestScore := 40 },
    gameState := GameState.playing,
    currentFragment := "frag",
    userClassification := none,
    secretTag := some Tag.FATE,
    revelationText := some "rev",
    errorMessage := none,
    attemptCount := 1,
    totalRoundsPlayed := 1,
    initialLoadComplete := true }

/-- Claim C1: in state `playing`, a correct classification adds 10 to
the score and 1 to the streak, updates both records to the `max`,
and on a streak divisible by 5 bumps the difficulty tier and emits the
promotion alert; an incorrect classification zeroes the streak, leaves
score, records and tier unchanged, and emits no alert. In particular,
from `currentStreak = 4`, `currentScore = 40`, `difficultyTier = 1`, a
correct classification yields `5 / 50 / 2` with a promotion alert and
an incorrect one yields `0 / 40 / 1` with none. -/
theorem classification_scoring (s : GameComponent) (t : Tag)
    (hplay : s.gameState = GameState.playing) (htag : s.secretTag = some t) :
    ((handleClassification s t).1.stats.currentScore = s.stats.currentScore + 10 ∧
     (handleClassification s t).1.stats.currentStreak = s.stats.currentStreak + 1 ∧
     (handleClassification s t).1.stats.highestStreak
       = max s.stats.highestStreak (s.stats.currentStreak + 1) ∧
     (handleClassification s t).1.stats.highestScore
       = max s.stats.highestScore (s.stats.currentScore + 10) ∧
     ((s.stats.currentStreak + 1) % 5 = 0 →
        (handleClassification s t).1.stats.difficultyTier
          = s.stats.difficultyTier + 1 ∧
        Event.alert "Promotion Achieved" (promotionText (s.stats.difficultyTier + 1))
          ∈ (handleClassification s t).2) ∧
     ((s.stats.currentStreak + 1) % 5 ≠ 0 →
        (handleClassification s t).1.stats.difficultyTier
          = s.stats.difficultyTier ∧
        ∀ ti m, Event.alert ti m ∉ (handleClassification s t).2)) ∧
    (∀ c, c ≠ t →
      (handleClassification s c).1.stats.currentStreak = 0 ∧
      (handleClassification s c).1.stats.currentScore = s.stats.currentScore ∧
      (handleClassification s c).1.stats.highestScore = s.stats.highestScore ∧
      (handleClassification s c).1.stats.highestStreak = s.stats.highestStreak ∧
      (handleClassification s c).1.stats.difficultyTier = s.stats.difficultyTier ∧
      ∀ ti m, Event.alert ti m ∉ (handleClassification s c).2) ∧
    ((handleClassification g4 Tag.FATE).1.stats.currentStreak = 5 ∧
     (handleClassification g4 Tag.FATE).1.stats.currentScore = 50 ∧
     (handleClassification g4 Tag.FATE).1.stats.difficultyTier = 2 ∧
     Event.alert "Promotion Achieved" (promotionText 2)
       ∈ (handleClassification g4 Tag.FATE).2 ∧
     (handleClassification g4 Tag.CHOICE).1.stats.currentStreak = 0 ∧
     (handleClassification g4 Tag.CHOICE).1.stats.currentScore = 40 ∧
     (handleClassification g4 Tag.CHOICE).1.stats.difficultyTier = 1 ∧
     (handleClassification g4 Tag.CHOICE).2
       = [Event.dbUpdate { currentScore := 40, currentStreak := 0,
                           highestStreak := 4, difficultyTier := 1,
                           highestScore := 40, totalRoundsPlayed := 1 }]) := by
  have hb : (s.secretTag == some t) = true := by rw [htag]; exact beq_self_eq_true _
  refine ⟨?_, ?_, by decide⟩
  · by_cases h5 : (s.stats.currentStreak + 1) % 5 = 0 <;>
      simp [handleClassification, hplay, hb, classifyStats_true_eq, h5,
            updateStatsInDb]
  · intro c hc
    have hbc := secretTag_beq_false htag hc
    simp [handleClassification, hplay, hbc, classifyStats_false_eq,
          updateStatsInDb]

/-- Claim C1 witness: the general theorem applied at the concrete
spec test state `g4`. -/
theorem classification_scoring_witness :
    (handleClassification g4 Tag.FATE).1.stats.currentScore
      = g4.stats.currentScore + 10 :=
  (classification_scoring g4 Tag.FATE rfl rfl).1.1

/-- One classification step preserves the record invariants. -/
lemma statsInv_step (s : GameComponent) (choice : Tag)
    (h : statsInv s.stats) : statsInv (handleClassification s choice).1.stats := by
  by_cases hg : s.gameState = GameState.playing
  · cases hb : (s.secretTag == some choice) with
    | false =>
        simp only [statsInv] at h ⊢
        simp [handleClassification, hg, hb, classifyStats_false_eq]
        exact h.1
    | true =>
        simp only [statsInv] at h ⊢
        by_cases h5 : (s.stats.currentStreak + 1) % 5 = 0 <;>
          simp [handleClassification, hg, hb, classifyStats_true_eq, h5]
  · simpa [handleClassification, hg] using h

/-- Any sequence of classification steps preserves the record
invariants. -/
lemma statsInv_seq (s : GameComponent) (l : List Tag)
    (h : statsInv s.stats) : statsInv (classifySeq s l).stats := by
  induction l generalizing s with
  | nil => simpa [classifySeq] using h
  | cons c cs ih =>
      simpa [classifySeq] using ih _ (statsInv_step s c h)

/-- Loading the profile yields a state satisfying the record
invariants (scores and streaks are reset to 0 on an existing snapshot,
and left alone otherwise). -/
lemma statsInv_fetchUserData (f : DocFetch) (s : GameComponent)
    (h : statsInv s.stats) : statsInv (fetchUserData f s).1.stats := by
  cases f with
  | ok snap => cases snap <;> simp_all [fetchUserData, statsInv]
  | err msg => simpa [fetchUserData] using h

/-- Claim C2: `highestScore ≥ currentScore` and
`highestStreak ≥ currentStreak` are preserved by every classification
(correct or not), hence hold after any sequence of classifications from
the initial all-zero state or from any freshly loaded state. -/
theorem stats_invariant :
    (∀ (s : GameComponent) (choice : Tag),
       statsInv s.stats → statsInv (handleClassification s choice).1.stats) ∧
    (∀ (s : GameComponent) (l : List Tag),
       statsInv s.stats → statsInv (classifySeq s l).stats) ∧
    statsInv initialGame.stats ∧
    (∀ (f : DocFetch) (s : GameComponent),
       statsInv s.stats → statsInv (fetchUserData f s).1.stats) :=
  ⟨statsInv_step, statsInv_seq, by decide, statsInv_fetchUserData⟩

/-- Claim C2 witness: the invariant after a concrete sequence of
classifications from the initial state. -/
theorem stats_invariant_witness :
    statsInv (classifySeq initialGame [Tag.FATE, Tag.CHOICE, Tag.CHANCE]).stats :=
  stats_invariant.2.1 initialGame [Tag.FATE, Tag.CHOICE, Tag.CHANCE] (by decide)

/-- Claim C9: outside the `playing` state, `handleClassification` is a
complete no-op: the component state is unchanged and no Firestore
write, alert, or other effect is issued. -/
theorem classify_noop_outside_playing (s : GameComponent) (choice : Tag)
    (h : s.gameState ≠ GameState.playing) :
    handleClassification s choice = (s, []) := by
  simp [handleClassification, h]

/-- Claim C9 witness: the no-op at the concrete `ready_to_start`
state. -/
theorem classify_noop_outside_playing_witness :
    handleClassification { initialGame with gameState := GameState.ready_to_start }
      Tag.CHANCE
      = ({ initialGame with gameState := GameState.ready_to_start }, []) :=
  classify_noop_outside_playing _ Tag.CHANCE (by decide)

/-! ## Theorems about the retry wrapper -/

/-- A transport stub returning 429 twice and then 200 (the spec's
resilient-fetch test). -/
def stub429twice200 : Nat → FetchOutcome :=
  fun i => if i < 2 then FetchOutcome.ok { status := 429, body := "rate limited" }
           else FetchOutcome.ok { status := 200, body := "payload" }

/-- Claim C3: with `maxAttempts = 3`, a transport returning 429 twice
and then 200 is attempted exactly 3 times and the 200 response is
returned; a transport that throws on every attempt is attempted exactly
3 times and the final attempt's error propagates. -/
theorem resilient_fetch_retry_behavior :
    exponentialBackoffFetch stub429twice200 3
      = (FetchResult.returned { status := 200, body := "payload" }, 3) ∧
    (∀ e : Nat → String,
       exponentialBackoffFetch (fun i => FetchOutcome.err (e i)) 3
         = (FetchResult.thrown (e 2), 3)) :=
  ⟨rfl, fun _ => rfl⟩

/-- Claim C3 witness: the always-throwing conjunct applied to a
concrete error function. -/
theorem resilient_fetch_retry_behavior_witness :
    exponentialBackoffFetch (fun i => FetchOutcome.err ((fun _ => "boom") i)) 3
      = (FetchResult.thrown "boom", 3) :=
  resilient_fetch_retry_behavior.2 (fun _ => "boom")

/-- A transport stub that answers 429 on every attempt. -/
def stubAll429 : Nat → FetchOutcome :=
  fun _ => FetchOutcome.ok { status := 429, body := "rate" }

/-- Claim C4 counterexample: with every attempt answering HTTP 429 and
`maxAttempts = 3`, `exponentialBackoffFetch` returns the final 429
response as a normal response after 3 attempts; it does not raise the
trailing "service unreachable after retries" error. -/
theorem all429_returns_response_counterexample :
    exponentialBackoffFetch stubAll429 3
      = (FetchResult.returned { status := 429, body := "rate" }, 3) ∧
    (exponentialBackoffFetch stubAll429 3).1 ≠ FetchResult.exhausted :=
  ⟨rfl, by decide⟩

/-- If the transport answers 429 on every attempt, the loop returns the
final attempt's 429 response, making one attempt per remaining
iteration. -/
lemma backoffAux_all429 (b : Nat → String) (retries : Nat) :
    ∀ remaining i, i + remaining = retries → 0 < remaining →
      backoffAux (fun j => FetchOutcome.ok { status := 429, body := b j })
          retries i remaining
        = (FetchResult.returned { status := 429, body := b (retries - 1) },
           remaining) := by
  intro remaining
  induction remaining with
  | zero => intro i _ h0; omega
  | succ n ih =>
      intro i hsum _
      by_cases hc : i < retries - 1
      · have hrec := ih (i + 1) (by omega) (by omega)
        simp [backoffAux, hc, hrec]
      · have hi : i = retries - 1 := by omega
        have hn : n = 0 := by omega
        subst hn
        simp [backoffAux, hc, hi]

/-- Claim C4 amended: when every attempt yields HTTP 429 and
`maxAttempts ≥ 1`, `exponentialBackoffFetch` performs exactly
`maxAttempts` attempts and returns the final 429 response to the caller
as a normal response; the trailing "failed to connect after retries"
throw is not reached. -/
theorem all429_returns_final_response (b : Nat → String) (retries : Nat)
    (h : 1 ≤ retries) :
    exponentialBackoffFetch (fun j => FetchOutcome.ok { status := 429, body := b j })
        retries
      = (FetchResult.returned { status := 429, body := b (retries - 1) }, retries) :=
  backoffAux_all429 b retries retries 0 (by omega) (by omega)

/-- Claim C4 amended witness: the amended theorem at `maxAttempts = 5`. -/
theorem all429_returns_final_response_witness :
    exponentialBackoffFetch
        (fun j => FetchOutcome.ok { status := 429, body := (fun _ => "limit") j }) 5
      = (FetchResult.returned { status := 429, body := "limit" }, 5) :=
  all429_returns_final_response (fun _ => "limit") 5 (by decide)

/-- Inside the loop, the result is either a response returned by some
attempt in range, or the error thrown by the final attempt; the
trailing throw is never reached. -/
lemma backoffAux_terminates (transport : Nat → FetchOutcome) (retries : Nat) :
    ∀ remaining i, i + remaining = retries → 0 < remaining →
      (∃ k r, i ≤ k ∧ k < retries ∧ transport k = FetchOutcome.ok r ∧
         (backoffAux transport retries i remaining).1 = FetchResult.returned r) ∨
      (∃ msg, transport (retries - 1) = FetchOutcome.err msg ∧
         (backoffAux transport retries i remaining).1 = FetchResult.thrown msg) := by
  intro remaining
  induction remaining with
  | zero => intro i _ h0; omega
  | succ n ih =>
      intro i hsum _
      cases htr : transport i with
      | ok r =>
          by_cases hc : r.status = 429 ∧ i < retries - 1
          · have hn : 0 < n := by omega
            rcases ih (i + 1) (by omega) hn with
              ⟨k, r', hik, hkr, htk, hres⟩ | ⟨msg, htm, hres⟩
            · exact Or.inl ⟨k, r', by omega, hkr, htk, by
                simpa [backoffAux, htr, hc] using hres⟩
            · exact Or.inr ⟨msg, htm, by
                simpa [backoffAux, htr, hc] using hres⟩
          · exact Or.inl ⟨i, r, le_refl i, by omega, htr, by
              simp [backoffAux, htr, hc]⟩
      | err msg =>
          by_cases hi : i = retries - 1
          · subst hi
            refine Or.inr ⟨msg, htr, ?_⟩
            simp [backoffAux, htr]
          · have hn : 0 < n := by omega
            rcases ih (i + 1) (by omega) hn with
              ⟨k, r', hik, hkr, htk, hres⟩ | ⟨msg', htm, hres⟩
            · exact Or.inl ⟨k, r', by omega, hkr, htk, by
                simpa [backoffAux, htr, hi] using hres⟩
            · exact Or.inr ⟨msg', htm, by
                simpa [backoffAux, htr, hi] using hres⟩

/-- Claim C10: for every `maxAttempts ≥ 1` and every transport,
`exponentialBackoffFetch` either returns a response produced by some
attempt (including a final-attempt 429, returned as a normal response)
or rethrows the final attempt's error; the trailing
"Failed to connect to the AI service after multiple retries." throw
after the loop is unreachable. -/
theorem exponentialBackoffFetch_total (transport : Nat → FetchOutcome)
    (retries : Nat) (h : 1 ≤ retries) :
    ((∃ k r, k < retries ∧ transport k = FetchOutcome.ok r ∧
        (exponentialBackoffFetch transport retries).1 = FetchResult.returned r) ∨
     (∃ msg, transport (retries - 1) = FetchOutcome.err msg ∧
        (exponentialBackoffFetch transport retries).1 = FetchResult.thrown msg)) ∧
    (exponentialBackoffFetch transport retries).1 ≠ FetchResult.exhausted := by
  have hmain := backoffAux_terminates transport retries retries 0 (by omega) (by omega)
  constructor
  · rcases hmain with ⟨k, r, _, hkr, htk, hres⟩ | ⟨msg, htm, hres⟩
    · exact Or.inl ⟨k, r, hkr, htk, hres⟩
    · exact Or.inr ⟨msg, htm, hres⟩
  · rcases hmain with ⟨_, _, _, _, _, hres⟩ | ⟨_, _, hres⟩ <;>
      simp [exponentialBackoffFetch, hres]

/-- Claim C10 witness: the totality theorem at the all-429 stub with
`maxAttempts = 3`. -/
theorem exponentialBackoffFetch_total_witness :
    (exponentialBackoffFetch stubAll429 3).1 ≠ FetchResult.exhausted :=
  (exponentialBackoffFetch_total stubAll429 3 (by decide)).2

/-! ## Profile loading, round bookkeeping, sign-out -/

/-- Claim C5 counterexample: in the followed Express-relay variant, the
mount-time profile load at the concrete initial state with a missing
document issues no store operation at all — in particular it does not
create or initialize a profile document — and the in-memory stats are
left at their defaults. -/
theorem fetchUserData_missing_creates_nothing :
    (fetchUserData (DocFetch.ok none) initialGame).2 = [] ∧
    (fetchUserData (DocFetch.ok none) initialGame).1.stats = initialStats :=
  ⟨rfl, rfl⟩

/-- Claim C5 amended: when the profile document does not exist at mount
time, the Express-relay variant's `fetchUserData` performs no store
write — no profile document is created — and simply leaves the
in-memory counters at their floor defaults (scores and streaks 0,
`difficultyTier` 1) while moving to `ready_to_start`; indeed no code
path of `fetchUserData` ever issues a store write. -/
theorem fetchUserData_missing_no_write (s : GameComponent) :
    fetchUserData (DocFetch.ok none) s
      = ({ s with gameState := GameState.ready_to_start,
                  initialLoadComplete := true }, []) ∧
    (fetchUserData (DocFetch.ok none) s).1.stats = s.stats ∧
    (initialStats.currentScore = 0 ∧ initialStats.currentStreak = 0 ∧
     initialStats.highestScore = 0 ∧ initialStats.highestStreak = 0 ∧
     initialStats.difficultyTier = 1) ∧
    (∀ (f : DocFetch) (w : DbStatsWrite),
       Event.dbUpdate w ∉ (fetchUserData f s).2) := by
  refine ⟨rfl, rfl, by decide, ?_⟩
  intro f w
  cases f with
  | ok snap => cases snap <;> simp [fetchUserData]
  | err msg => simp [fetchUserData]

/-- Claim C5 amended witness: the amended theorem at the initial mount
state. -/
theorem fetchUserData_missing_no_write_witness :
    (fetchUserData (DocFetch.ok none) initialGame).1.stats = initialGame.stats :=
  (fetchUserData_missing_no_write initialGame).2.1

/-- Counter bookkeeping of one `startNewRound` call: the attempt
counter always advances modulo 5, and `totalRoundsPlayed` increments
exactly when the attempt counter was 0 on entry. -/
lemma startNewRound_counters (s : GameComponent) (d : Option Nat) (tag : Tag)
    (f : Except String (String × String)) :
    (startNewRound s d tag f).1.attemptCount = (s.attemptCount + 1) % 5 ∧
    (startNewRound s d tag f).1.totalRoundsPlayed
      = (if s.attemptCount = 0 then s.totalRoundsPlayed + 1
         else s.totalRoundsPlayed) := by
  cases f <;> by_cases h : s.attemptCount = 0 <;> simp [startNewRound, h]

/-- Claim C7: `startNewRound` increments `totalRoundsPlayed` exactly
when the attempt counter is 0 on entry and always advances the counter
modulo 5; classifications never touch either counter; hence five
consecutive `startNewRound` calls from counter 0 increase
`totalRoundsPlayed` by exactly 1 and return the counter to 0. -/
theorem totalRounds_per_five_starts :
    (∀ (s : GameComponent) (d : Option Nat) (tag : Tag)
       (f : Except String (String × String)),
       (startNewRound s d tag f).1.attemptCount = (s.attemptCount + 1) % 5 ∧
       (s.attemptCount = 0 →
          (startNewRound s d tag f).1.totalRoundsPlayed
            = s.totalRoundsPlayed + 1) ∧
       (s.attemptCount ≠ 0 →
          (startNewRound s d tag f).1.totalRoundsPlayed
            = s.totalRoundsPlayed)) ∧
    (∀ (s : GameComponent) (c : Tag),
       (handleClassification s c).1.attemptCount = s.attemptCount ∧
       (handleClassification s c).1.totalRoundsPlayed = s.totalRoundsPlayed) ∧
    (∀ (s : GameComponent)
       (d1 d2 d3 d4 d5 : Option Nat) (t1 t2 t3 t4 t5 : Tag)
       (f1 f2 f3 f4 f5 : Except String (String × String)),
       s.attemptCount = 0 →
       ((startNewRound
           (startNewRound
             (startNewRound
               (startNewRound
                 (startNewRound s d1 t1 f1).1 d2 t2 f2).1 d3 t3 f3).1
             d4 t4 f4).1 d5 t5 f5).1.totalRoundsPlayed
          = s.totalRoundsPlayed + 1 ∧
        (startNewRound
           (startNewRound
             (startNewRound
               (startNewRound
                 (startNewRound s d1 t1 f1).1 d2 t2 f2).1 d3 t3 f3).1
             d4 t4 f4).1 d5 t5 f5).1.attemptCount = 0)) := by
  refine ⟨?_, ?_, ?_⟩
  · intro s d tag f
    have h := startNewRound_counters s d tag f
    refine ⟨h.1, fun h0 => ?_, fun h0 => ?_⟩ <;> simp [h.2, h0]
  · intro s c
    by_cases hg : s.gameState = GameState.playing
    · cases hb : (s.secretTag == some c) with
      | false => simp [handleClassification, hg, hb, classifyStats_false_eq]
      | true =>
          by_cases h5 : (s.stats.currentStreak + 1) % 5 = 0 <;>
            simp [handleClassification, hg, hb, classifyStats_true_eq, h5]
    · by_cases hg' : s.gameState ≠ GameState.playing
      · simp [handleClassification, hg']
      · exact absurd hg (hg' ∘ fun h => h)
  · intro s d1 d2 d3 d4 d5 t1 t2 t3 t4 t5 f1 f2 f3 f4 f5 h0
    obtain ⟨a1, r1⟩ := startNewRound_counters s d1 t1 f1
    obtain ⟨a2, r2⟩ := startNewRound_counters (startNewRound s d1 t1 f1).1 d2 t2 f2
    obtain ⟨a3, r3⟩ := startNewRound_counters
      (startNewRound (startNewRound s d1 t1 f1).1 d2 t2 f2).1 d3 t3 f3
    obtain ⟨a4, r4⟩ := startNewRound_counters
      (startNewRound (startNewRound (startNewRound s d1 t1 f1).1 d2 t2 f2).1
        d3 t3 f3).1 d4 t4 f4
    obtain ⟨a5, r5⟩ := startNewRound_counters
      (startNewRound (startNewRound (startNewRound (startNewRound s d1 t1 f1).1
        d2 t2 f2).1 d3 t3 f3).1 d4 t4 f4).1 d5 t5 f5
    rw [h0] at a1 r1
    constructor
    · rw [r5, r4, r3, r2, r1]
      rw [a4, a3, a2, a1]
      norm_num
    · rw [a5, a4, a3, a2, a1]

/-- Claim C7 witness: the five-call conjunct at the mount state (whose
attempt counter is 0), with concrete parameters for every call. -/
theorem totalRounds_per_five_starts_witness :
    (startNewRound
       (startNewRound
         (startNewRound
           (startNewRound
             (startNewRound initialGame none Tag.FATE
               (Except.ok ("f", "r"))).1 none Tag.CHOICE
             (Except.error "down")).1 none Tag.CHANCE
           (Except.ok ("g", "s"))).1 none Tag.FATE
         (Except.error "down")).1 none Tag.FATE
       (Except.ok ("h", "t"))).1.totalRoundsPlayed
      = initialGame.totalRoundsPlayed + 1 :=
  (totalRounds_per_five_starts.2.2 initialGame none none none none none
    Tag.FATE Tag.CHOICE Tag.CHANCE Tag.FATE Tag.FATE
    (Except.ok ("f", "r")) (Except.error "down") (Except.ok ("g", "s"))
    (Except.error "down") (Except.ok ("h", "t")) rfl).1

/-- Claim C8: `handleSignOut`'s effect trace is exactly a completed
profile-store write carrying `currentScore = 0` and `currentStreak = 0`
with every other stats field unchanged, followed by — strictly after —
the session-termination call. The handler awaits its own write, so this
ordering does not depend on any earlier classification write. -/
theorem signOut_persists_zeroes_before_session (stats : Stats) (rounds : Nat) :
    handleSignOut stats rounds
      = [Event.dbUpdate
           { currentScore := 0, currentStreak := 0,
             highestStreak := stats.highestStreak,
             difficultyTier := stats.difficultyTier,
             highestScore := stats.highestScore,
             totalRoundsPlayed := rounds },
         Event.sessionEnd] := rfl

/-- Claim C8 witness: the sign-out trace at a concrete stats state. -/
theorem signOut_persists_zeroes_before_session_witness :
    handleSignOut { username := "The Archivist", currentScore := 30,
                    currentStreak := 3, highestStreak := 7,
                    difficultyTier := 2, highestScore := 90 } 4
      = [Event.dbUpdate
           { currentScore := 0, currentStreak := 0, highestStreak := 7,
             difficultyTier := 2, highestScore := 90,
             totalRoundsPlayed := 4 },
         Event.sessionEnd] :=
  signOut_persists_zeroes_before_session _ 4

/-! ## Theorems about the fragment relay -/

/-- Claim C6: for a valid request (a tag from the enum and a tier of at
least 1) and a model call yielding text, the relay answers HTTP 200
exactly when the extracted JSON object has both `fragmentText` and
`revelationText` present and non-empty; a 200 response therefore always
carries two non-empty strings, and an extraction failure always yields
a 500-class error. -/
theorem relay_ok_iff_nonempty_fields (parse : String → Option JsonObj)
    (tag : String) (d : Nat) (t : String)
    (htag : tag ∈ ["FATE", "CHOICE", "CHANCE"]) (hd : 1 ≤ d) :
    (∀ obj,
       generateFragmentHandler parse (some tag) (some d) (ModelCall.text t)
           = RelayResult.ok obj ↔
         (extractJson parse (jsTrim t) = some obj ∧
          truthyStr obj.fragmentText = true ∧
          truthyStr obj.revelationText = true)) ∧
    (∀ obj,
       generateFragmentHandler parse (some tag) (some d) (ModelCall.text t)
           = RelayResult.ok obj →
         ∃ f r, obj.fragmentText = some f ∧ f ≠ "" ∧
                obj.revelationText = some r ∧ r ≠ "") ∧
    (extractJson parse (jsTrim t) = none →
       ∃ msg,
         generateFragmentHandler parse (some tag) (some d) (ModelCall.text t)
           = RelayResult.serverError msg) ∧
    (∀ obj, extractJson parse (jsTrim t) = some obj →
       (truthyStr obj.fragmentText = false ∨ truthyStr obj.revelationText = false) →
       ∃ msg,
         generateFragmentHandler parse (some tag) (some d) (ModelCall.text t)
           = RelayResult.serverError msg) := by
  have htagNe : tag ≠ "" := by
    simp only [List.mem_cons, List.not_mem_nil, or_false] at htag
    rcases htag with h | h | h <;> subst h <;> decide
  have htagT : truthyStr (some tag) = true := by
    simp [truthyStr, htagNe]
  have hdT : jsTruthyNat (some d) = true := by
    simp only [jsTruthyNat, ne_eq, decide_eq_true_eq]
    omega
  have hiff : ∀ obj,
      generateFragmentHandler parse (some tag) (some d) (ModelCall.text t)
          = RelayResult.ok obj ↔
        (extractJson parse (jsTrim t) = some obj ∧
         truthyStr obj.fragmentText = true ∧
         truthyStr obj.revelationText = true) := by
    intro obj
    cases hE : extractJson parse (jsTrim t) with
    | none => simp [generateFragmentHandler, htagT, hdT, hE]
    | some data =>
        cases hF : truthyStr data.fragmentText <;>
          cases hR : truthyStr data.revelationText <;>
          simp [generateFragmentHandler, htagT, hdT, hE, hF, hR] <;>
          intros <;> simp_all
  refine ⟨hiff, ?_, ?_, ?_⟩
  · intro obj hok
    obtain ⟨_, hF, hR⟩ := (hiff obj).mp hok
    cases hf : obj.fragmentText with
    | none => rw [hf] at hF; exact absurd hF (by simp [truthyStr])
    | some f =>
        cases hr : obj.revelationText with
        | none => rw [hr] at hR; exact absurd hR (by simp [truthyStr])
        | some r =>
            rw [hf] at hF
            rw [hr] at hR
            refine ⟨f, r, rfl, ?_, rfl, ?_⟩ <;> simp_all [truthyStr]
  · intro hE
    exact ⟨"AI response format was invalid or unparsable.",
      by simp [generateFragmentHandler, htagT, hdT, hE]⟩
  · intro obj hE hbad
    refine ⟨"AI response format was invalid or unparsable.", ?_⟩
    rcases hbad with hF | hR
    · simp [generateFragmentHandler, htagT, hdT, hE, hF]
    · simp [generateFragmentHandler, htagT, hdT, hE, hR]

/-- A concrete stand-in for `JSON.parse` used by the claim C6 witness:
it recognizes exactly one brace-delimited payload. -/
def parseStub : String → Option JsonObj :=
  fun s =>
    if s = "\x7bj\x7d" then some { fragmentText := some "f", revelationText := some "r" }
    else none

/-- Claim C6 witness: the iff applied at a concrete parse function,
tag, tier and model text, yielding the 200 response. -/
theorem relay_ok_iff_nonempty_fields_witness :
    generateFragmentHandler parseStub (some "FATE") (some 1)
        (ModelCall.text " \x7bj\x7d ")
      = RelayResult.ok { fragmentText := some "f", revelationText := some "r" } :=
  ((relay_ok_iff_nonempty_fields parseStub "FATE" 1 " \x7bj\x7d "
      (by decide) (by decide)).1
    { fragmentText := some "f", revelationText := some "r" }).mpr
    ⟨by decide, by decide, by decide⟩

end Archivist
